import Mathlib

/-!
Shallow embedding of the Lingerie Store backend (src/main.py together with
src/schemas.py): the data model, the Mongo query document built by
`search_products` and its evaluation semantics, sorting, pagination, the
facet aggregation pipelines, the document gateway used by `seed_products`
and `create_order`, and `get_product` with BSON ObjectId parsing.

Numbers: Python floats (prices, ratings) are modelled as `Rat`; none of the
verified properties depend on floating-point rounding.  Database documents
are modelled as schema-shaped records, since every record is inserted
through the pydantic-validated endpoints.
-/

/-- schemas.py `ProductVariant`: size label, color label, optional SKU,
stock count. -/
structure ProductVariant where
  size : String
  color : String
  sku : Option String := none
  stock : Nat := 0
deriving DecidableEq, Repr

/-- schemas.py `ProductImage`: URL and optional alt text. -/
structure ProductImage where
  url : String
  alt : Option String := none
deriving DecidableEq, Repr

/-- schemas.py `Product`.  Field defaults mirror the pydantic defaults. -/
structure Product where
  title : String
  description : Option String := none
  price : Rat
  compare_at_price : Option Rat := none
  category : String
  subcategory : Option String := none
  brand : Option String := some "Enamor"
  rating : Option Rat := some 4
  rating_count : Option Nat := some 0
  tags : List String := []
  variants : List ProductVariant := []
  images : List ProductImage := []
  is_active : Bool := true
deriving DecidableEq, Repr

/-- main.py `FilterRequest` with its pydantic defaults. -/
structure FilterRequest where
  category : Option String := none
  subcategory : Option String := none
  price_min : Option Rat := none
  price_max : Option Rat := none
  colors : Option (List String) := none
  sizes : Option (List String) := none
  tags : Option (List String) := none
  sort : Option String := none
  search : Option String := none
  page : Int := 1
  limit : Int := 24
deriving DecidableEq, Repr

/-- schemas.py `CartItem`. -/
structure CartItem where
  product_id : String
  title : String
  price : Rat
  quantity : Nat := 1
  variant : Option ProductVariant := none
  image : Option String := none
deriving DecidableEq, Repr

/-- schemas.py `Order`.  `created_at` models the optional datetime as an
epoch timestamp. -/
structure Order where
  items : List CartItem
  subtotal : Rat
  discount : Rat := 0
  shipping : Rat := 0
  total : Rat
  currency : String := "INR"
  customer_name : String
  customer_email : String
  customer_phone : Option String := none
  shipping_address : String
  notes : Option String := none
  created_at : Option Int := none
deriving DecidableEq, Repr

/-- An error surfaced to the HTTP client: either an explicit
`HTTPException(status, detail)` raised by main.py, or an uncaught Python
exception propagating out of a handler (which the framework turns into a
generic server-error response). -/
inductive ApiError where
  | http (status : Nat) (detail : String)
  | exn (msg : String)
deriving DecidableEq, Repr

/-- main.py raises `HTTPException(status_code=500, detail="Database not
configured")` whenever the `db` handle is `None`. -/
def unconfiguredError : ApiError := .http 500 "Database not configured"

/-- main.py `get_product`: malformed ObjectId. -/
def invalidIdError : ApiError := .http 400 "Invalid product id"

/-- main.py `get_product`: well-formed id with no matching document. -/
def notFoundError : ApiError := .http 404 "Not found"

/-- The HTTP status code named "Service Unavailable" (spec section 7 says the
Unconfigured error kind is "surfaced as service-unavailable"). -/
def serviceUnavailableStatus : Nat := 503

/-- Python truthiness of an optional string field (`if filters.category:`):
`None` and the empty string are falsy. -/
def optStrTruthy : Option String → Bool
  | none => false
  | some s => !s.isEmpty

/-- Python truthiness of an optional list field (`if filters.colors:`):
`None` and the empty list are falsy. -/
def optListTruthy : Option (List String) → Bool
  | none => false
  | some l => !l.isEmpty

/-! ### Mongo `$regex` semantics

main.py passes `filters.search` verbatim as a `$regex` pattern with option
`"i"`.  We model the fragment of PCRE that the development exercises: `'.'`
is the any-character-but-newline wildcard and every other character matches
itself.  This model is exact for patterns that contain no PCRE
metacharacter other than `'.'`; the theorems below only ever evaluate it on
metacharacter-free patterns and on the single-character pattern `"."`. -/

/-- One compiled regex token. -/
inductive RTok where
  | lit (c : Char)
  | anyChar
deriving DecidableEq, Repr

/-- Compile a pattern string: `'.'` becomes the wildcard, all other
characters are literals. -/
def compilePat (s : String) : List RTok :=
  s.data.map fun c => if c = '.' then RTok.anyChar else RTok.lit c

/-- Case-insensitive single-token match (the `"i"` regex option). -/
def tokMatches : RTok → Char → Bool
  | .lit a, c => a.toLower == c.toLower
  | .anyChar, c => c != '\n'

/-- Anchored match of a token list against the head of a character list. -/
def matchesAt : List RTok → List Char → Bool
  | [], _ => true
  | _ :: _, [] => false
  | t :: ts, c :: cs => tokMatches t c && matchesAt ts cs

/-- Unanchored regex search: Mongo `$regex` matches a document when the
pattern matches at some position of the field. -/
def regexSearch (ts : List RTok) : List Char → Bool
  | [] => matchesAt ts []
  | c :: cs => matchesAt ts (c :: cs) || regexSearch ts cs

/-- The predicate main.py's `{"$regex": pat, "$options": "i"}` clause
applies to a string field. -/
def mongoRegexCI (pat fld : String) : Bool :=
  regexSearch (compilePat pat) fld.data

/-- Following the spec's words only (for comparison with the code's regex
behaviour): "case-insensitive substring match" of `needle` in `hay`. -/
def ciSubstring (needle hay : String) : Bool :=
  decide (needle.data.map Char.toLower <:+: hay.data.map Char.toLower)

/-! ### The query document built by `search_products` (main.py lines 98-122) -/

/-- The Mongo query dictionary: one optional clause per key the code may
add.  `searchRegex` stands for the `$or` pair of `$regex` clauses on title
and description; `priceGte`/`priceLte` for the `price` range document. -/
structure MongoQuery where
  is_active : Bool
  category : Option String
  subcategory : Option String
  colorsIn : Option (List String)
  sizesIn : Option (List String)
  tagsIn : Option (List String)
  searchRegex : Option String
  priceGte : Option Rat
  priceLte : Option Rat
deriving DecidableEq, Repr

/-- main.py lines 98-122: build the query from a `FilterRequest`.  String
and list filters are added only when Python-truthy; the price bounds are
added whenever not `None`. -/
def buildQuery (f : FilterRequest) : MongoQuery where
  is_active := true
  category := if optStrTruthy f.category then f.category else none
  subcategory := if optStrTruthy f.subcategory then f.subcategory else none
  colorsIn := if optListTruthy f.colors then f.colors else none
  sizesIn := if optListTruthy f.sizes then f.sizes else none
  tagsIn := if optListTruthy f.tags then f.tags else none
  searchRegex := if optStrTruthy f.search then f.search else none
  priceGte := f.price_min
  priceLte := f.price_max

/-- Clause `{"is_active": true}`. -/
def clActive (q : MongoQuery) (p : Product) : Bool :=
  p.is_active == q.is_active

/-- Clause `{"category": c}`: exact equality. -/
def clCategory (q : MongoQuery) (p : Product) : Bool :=
  match q.category with
  | none => true
  | some c => p.category == c

/-- Clause `{"subcategory": c}`: a document whose subcategory is null does
not equal a string. -/
def clSubcategory (q : MongoQuery) (p : Product) : Bool :=
  match q.subcategory with
  | none => true
  | some c => p.subcategory == some c

/-- Clause `{"variants.color": {"$in": cs}}`: some array element's color is
in `cs`. -/
def clColors (q : MongoQuery) (p : Product) : Bool :=
  match q.colorsIn with
  | none => true
  | some cs => p.variants.any fun v => cs.contains v.color

/-- Clause `{"variants.size": {"$in": ss}}`. -/
def clSizes (q : MongoQuery) (p : Product) : Bool :=
  match q.sizesIn with
  | none => true
  | some ss => p.variants.any fun v => ss.contains v.size

/-- Clause `{"tags": {"$in": ts}}`: some tag is in `ts`. -/
def clTags (q : MongoQuery) (p : Product) : Bool :=
  match q.tagsIn with
  | none => true
  | some ts => p.tags.any fun t => ts.contains t

/-- Clause `{"$or": [title $regex, description $regex]}` with option "i";
`$regex` never matches a null (absent) description. -/
def clSearch (q : MongoQuery) (p : Product) : Bool :=
  match q.searchRegex with
  | none => true
  | some pat =>
    mongoRegexCI pat p.title ||
      (match p.description with
       | some d => mongoRegexCI pat d
       | none => false)

/-- Clause `{"price": {"$gte": m, "$lte": M}}`, each bound optional and
inclusive. -/
def clPrice (q : MongoQuery) (p : Product) : Bool :=
  (match q.priceGte with
   | none => true
   | some m => decide (m ≤ p.price)) &&
  (match q.priceLte with
   | none => true
   | some m => decide (p.price ≤ m))

/-- Evaluation of the whole query document on a product: Mongo combines
top-level keys conjunctively. -/
def matchQuery (q : MongoQuery) (p : Product) : Bool :=
  clActive q p && clCategory q p && clSubcategory q p && clColors q p &&
    clSizes q p && clTags q p && clSearch q p && clPrice q p

/-! ### Sorting (main.py lines 124-130, 137-138) -/

/-- Sort order for `sort_spec = [("price", 1)]`. -/
def priceAscLe (a b : Product) : Prop := a.price ≤ b.price

/-- Sort order for `sort_spec = [("price", -1)]`. -/
def priceDescLe (a b : Product) : Prop := b.price ≤ a.price

/-- The BSON sort key of the optional `rating` field: Mongo orders null
below every number. -/
def ratingKey (p : Product) : WithBot Rat :=
  match p.rating with
  | none => ⊥
  | some r => (r : WithBot Rat)

/-- Sort order for `sort_spec = [("rating", -1)]`. -/
def ratingDescLe (a b : Product) : Prop := ratingKey b ≤ ratingKey a

instance : DecidableRel priceAscLe :=
  fun a b => inferInstanceAs (Decidable (a.price ≤ b.price))

instance : DecidableRel priceDescLe :=
  fun a b => inferInstanceAs (Decidable (b.price ≤ a.price))

instance : DecidableRel ratingDescLe :=
  fun a b => inferInstanceAs (Decidable (ratingKey b ≤ ratingKey a))

instance : IsTotal Product priceAscLe :=
  ⟨fun a b => le_total a.price b.price⟩

instance : IsTrans Product priceAscLe :=
  ⟨fun _ _ _ h h2 => le_trans h h2⟩

instance : IsTotal Product priceDescLe :=
  ⟨fun a b => le_total b.price a.price⟩

instance : IsTrans Product priceDescLe :=
  ⟨fun _ _ _ h h2 => le_trans h2 h⟩

instance : IsTotal Product ratingDescLe :=
  ⟨fun a b => le_total (ratingKey b) (ratingKey a)⟩

instance : IsTrans Product ratingDescLe :=
  ⟨fun _ _ _ h h2 => le_trans h2 h⟩

/-- main.py lines 124-130 and 137-138: one of four sort modes, selected by
the string tag; any other tag (including unset) leaves the cursor in
natural order. -/
def sortItems (s : Option String) (xs : List Product) : List Product :=
  if s = some "price_asc" then List.insertionSort priceAscLe xs
  else if s = some "price_desc" then List.insertionSort priceDescLe xs
  else if s = some "rating" then List.insertionSort ratingDescLe xs
  else xs

/-! ### Pagination (main.py lines 133, 139) -/

/-- pymongo `cursor.limit(n)`: `n = 0` means no limit; a negative `n` caps
the result at `|n|` documents (single batch). -/
def mongoLimit (n : Int) (xs : List Product) : List Product :=
  if n = 0 then xs else xs.take n.natAbs

/-! ### Facet aggregation (main.py lines 144-156, 163-166) -/

/-- One entry of the facet output: `{"value": v, "count": c}`. -/
structure FacetEntry where
  value : String
  count : Nat
deriving DecidableEq, Repr

/-- The `$match`/`$unwind` stages of the facet pipeline: one occurrence of
`proj variant` per variant of each product matching the query.  A matching
product with an empty variant list contributes nothing (`$unwind` drops
it). -/
def variantOccurrences (proj : ProductVariant → String) (prods : List Product)
    (q : MongoQuery) : List String :=
  ((prods.filter fun p => matchQuery q p).map fun p => p.variants.map proj).flatten

/-- Descending-count order for the `{"$sort": {"count": -1}}` stage. -/
def facetDescLe (a b : FacetEntry) : Prop := b.count ≤ a.count

instance : DecidableRel facetDescLe :=
  fun a b => inferInstanceAs (Decidable (b.count ≤ a.count))

instance : IsTotal FacetEntry facetDescLe :=
  ⟨fun a b => le_total b.count a.count⟩

instance : IsTrans FacetEntry facetDescLe :=
  ⟨fun _ _ _ h h2 => le_trans h2 h⟩

/-- The `$group`/`$sort` stages followed by main.py's comprehension filter
`if c.get("_id")`: group the occurrences into per-value counts, sort by
descending count, and drop Python-falsy (empty) values. -/
def facetList (vals : List String) : List FacetEntry :=
  let grouped := vals.dedup.map fun v => FacetEntry.mk v (vals.count v)
  (List.insertionSort facetDescLe grouped).filter fun e => !e.value.isEmpty

/-! ### The search endpoint (main.py lines 93-167) -/

/-- Both facet lists of the response. -/
structure Facets where
  colors : List FacetEntry
  sizes : List FacetEntry
deriving DecidableEq, Repr

/-- The body returned by `search_products`.  (The per-item `_id`
stringification of lines 141-142 is serialization of identifiers, which no
search property mentions; items are modelled as the product records.) -/
structure SearchResponse where
  total : Nat
  page : Int
  limit : Int
  items : List Product
  facets : Facets
deriving DecidableEq, Repr

/-- main.py lines 98-167: the search pipeline on a configured database,
modelled as the list of product documents in natural (insertion) order. -/
def searchOk (prods : List Product) (f : FilterRequest) : SearchResponse :=
  let q := buildQuery f
  let matched := prods.filter fun p => matchQuery q p
  let sorted := sortItems f.sort matched
  let skip := (max 0 ((f.page - 1) * f.limit)).toNat
  { total := matched.length
    page := f.page
    limit := f.limit
    items := mongoLimit f.limit (sorted.drop skip)
    facets :=
      { colors := facetList (variantOccurrences (fun v => v.color) prods q)
        sizes := facetList (variantOccurrences (fun v => v.size) prods q) } }

/-- main.py `search_products`: a missing database handle fails before any
query runs. -/
def search_products (db : Option (List Product)) (f : FilterRequest) :
    Except ApiError SearchResponse :=
  match db with
  | none => .error unconfiguredError
  | some prods => .ok (searchOk prods f)

/-! ### The document gateway (the `database` module, absent from src/) -/

/-- State of one collection behind the document gateway: the next fresh
identifier slot, the stored documents in insertion order, and a fault set
naming the slots whose insert raises (the spec's partial-failure discussion
assumes inserts can raise). -/
structure GatewayState (α : Type) where
  nextId : Nat
  docs : List (Nat × α)
  failAt : List Nat
deriving DecidableEq, Repr

/-- The plain-string form of the identifier generated for slot `n`. -/
def genId (n : Nat) : String := "oid" ++ toString n

/-- Modelled from the spec: `database.create_document` (the `database`
module is not under src/).  Spec section 4.2: "accept one validated record,
persist it, return its newly generated identifier"; the insert may raise,
which the fault set models. -/
def create_document (s : GatewayState α) (doc : α) :
    Except String (String × GatewayState α) :=
  if s.failAt.contains s.nextId then .error "insert failed"
  else .ok (genId s.nextId, ⟨s.nextId + 1, s.docs ++ [(s.nextId, doc)], s.failAt⟩)

/-- main.py lines 86-89: the seed loop, inserting each product in turn.  An
insert failure propagates immediately, carrying the state the successful
inserts produced. -/
def seedLoop : GatewayState Product → List Product →
    Except (String × GatewayState Product) (List String × GatewayState Product)
  | s, [] => .ok ([], s)
  | s, p :: ps =>
    match create_document s p with
    | .error e => .error (e, s)
    | .ok (i, s1) =>
      match seedLoop s1 ps with
      | .error r => .error r
      | .ok (ids, s2) => .ok (i :: ids, s2)

/-- Response of the seed endpoint: `{"inserted": n, "ids": [...]}`. -/
structure SeedResponse where
  inserted : Nat
  ids : List String
deriving DecidableEq, Repr

/-- main.py `seed_products`: unconfigured database fails first; otherwise
the loop runs, and an uncaught insert exception surfaces as an error while
the already-inserted documents remain in the database. -/
def seed_products (db : Option (GatewayState Product)) (ps : List Product) :
    Except ApiError SeedResponse × Option (GatewayState Product) :=
  match db with
  | none => (.error unconfiguredError, none)
  | some s =>
    match seedLoop s ps with
    | .error (e, s1) => (.error (.exn e), some s1)
    | .ok (ids, s1) => (.ok ⟨ids.length, ids⟩, some s1)

/-- main.py `create_order`: one insert through the gateway. -/
def create_order (db : Option (GatewayState Order)) (o : Order) :
    Except ApiError String × Option (GatewayState Order) :=
  match db with
  | none => (.error unconfiguredError, none)
  | some s =>
    match create_document s o with
    | .error e => (.error (.exn e), some s)
    | .ok (i, s1) => (.ok i, some s1)

/-! ### get_product (main.py lines 170-183) -/

/-- Hexadecimal digit, either case. -/
def isHexDigit (c : Char) : Bool :=
  c.isDigit || ('a' ≤ c && c ≤ 'f') || ('A' ≤ c && c ≤ 'F')

/-- bson `ObjectId(s)` accepts exactly the 24-character hexadecimal
strings; anything else raises `InvalidId`. -/
def isValidObjectId (s : String) : Bool :=
  s.length == 24 && s.data.all isHexDigit

/-- main.py `get_product`: database check, then ObjectId parsing (400 on
failure), then `find_one` (404 when absent), then the record with its id as
a plain string.  ObjectId equality is case-insensitive on the hex form, and
stored ids are the canonical lowercase strings the gateway generates. -/
def get_product (db : Option (List (String × Product))) (product_id : String) :
    Except ApiError (String × Product) :=
  match db with
  | none => .error unconfiguredError
  | some recs =>
    if isValidObjectId product_id then
      match recs.find? (fun r => r.1 == product_id.toLower) with
      | none => .error notFoundError
      | some r => .ok r
    else .error invalidIdError

/-! ### Basic facts about the pipeline -/

/-- Every document `cursor.limit` returns came from the cursor. -/
lemma sublist_mongoLimit (n : Int) (xs : List Product) : (mongoLimit n xs).Sublist xs := by
  unfold mongoLimit
  split
  · exact List.Sublist.refl xs
  · exact List.take_sublist _ _

/-- Sorting permutes the matched set, so membership is unchanged. -/
lemma mem_sortItems {s : Option String} {xs : List Product} {x : Product} :
    x ∈ sortItems s xs ↔ x ∈ xs := by
  unfold sortItems
  split
  · exact List.mem_insertionSort _
  · split
    · exact List.mem_insertionSort _
    · split
      · exact List.mem_insertionSort _
      · exact Iff.rfl

/-- The page of items, written out from the definition of `searchOk`. -/
lemma searchOk_items (prods : List Product) (f : FilterRequest) :
    (searchOk prods f).items =
      mongoLimit f.limit
        ((sortItems f.sort (prods.filter fun p => matchQuery (buildQuery f) p)).drop
          (max 0 ((f.page - 1) * f.limit)).toNat) := rfl

/-- The returned page is a sublist of the sorted matched set. -/
lemma items_sublist_sorted (prods : List Product) (f : FilterRequest) :
    (searchOk prods f).items.Sublist
      (sortItems f.sort (prods.filter fun p => matchQuery (buildQuery f) p)) := by
  rw [searchOk_items]
  exact (sublist_mongoLimit _ _).trans (List.drop_sublist _ _)

/-- Every returned item is a stored product satisfying the query. -/
lemma mem_searchOk_items {prods : List Product} {f : FilterRequest} {p : Product}
    (hp : p ∈ (searchOk prods f).items) :
    p ∈ prods ∧ matchQuery (buildQuery f) p = true := by
  have h1 : p ∈ sortItems f.sort (prods.filter fun p => matchQuery (buildQuery f) p) :=
    (items_sublist_sorted prods f).subset hp
  exact List.mem_filter.mp (mem_sortItems.mp h1)

/-- Sample catalog records used to instantiate proved theorems. -/
def wRed : Product :=
  { title := "Lace Bra"
    description := some "Soft red lace"
    price := 20
    category := "Bras"
    rating := some 5
    tags := ["lace"]
    variants := [⟨"34B", "Red", none, 3⟩, ⟨"36B", "Red", none, 1⟩] }

/-- A second sample record. -/
def wBlack : Product :=
  { title := "Cotton Brief"
    price := 10
    category := "Briefs"
    rating := some 3
    tags := ["cotton"]
    variants := [⟨"M", "Black", none, 5⟩] }

/-- An inactive sample record. -/
def wInactive : Product :=
  { title := "Silk Robe"
    price := 50
    category := "Robes"
    is_active := false
    variants := [⟨"L", "Gold", none, 1⟩] }

/-- C1: for every FilterRequest, every product returned by the search
operation has its active flag equal to true; inactive products are never
returned, regardless of any other filter settings. -/
theorem search_active_invariant (prods : List Product) (f : FilterRequest) (p : Product)
    (hp : p ∈ (searchOk prods f).items) : p.is_active = true := by
  have hm := (mem_searchOk_items hp).2
  simp only [matchQuery, Bool.and_eq_true] at hm
  have hA : clActive (buildQuery f) p = true := hm.1.1.1.1.1.1.1
  simpa [clActive, buildQuery] using hA

/-- Evaluation of C1 on a concrete catalog holding an inactive product. -/
theorem search_active_invariant_witness : wRed.is_active = true :=
  search_active_invariant [wRed, wBlack, wInactive] {} wRed (by decide)

/-- C10: a filter field whose value is falsy but present — the empty string
for category, subcategory, or search, or the empty list for colors, sizes,
or tags — imposes no constraint and behaves exactly as if the field were
absent; by contrast, price_min and price_max are applied whenever they are
non-null, so price_min = 0.0 does add a price clause to the query. -/
theorem falsy_filter_fields (prods : List Product) (f : FilterRequest) :
    searchOk prods {f with category := some ""} = searchOk prods {f with category := none} ∧
    searchOk prods {f with subcategory := some ""} =
      searchOk prods {f with subcategory := none} ∧
    searchOk prods {f with search := some ""} = searchOk prods {f with search := none} ∧
    searchOk prods {f with colors := some []} = searchOk prods {f with colors := none} ∧
    searchOk prods {f with sizes := some []} = searchOk prods {f with sizes := none} ∧
    searchOk prods {f with tags := some []} = searchOk prods {f with tags := none} ∧
    (buildQuery {f with price_min := some 0}).priceGte = some 0 ∧
    (buildQuery {f with price_max := some 0}).priceLte = some 0 := by
  refine ⟨?_, ?_, ?_, ?_, ?_, ?_, ?_, ?_⟩
  · have hb : buildQuery {f with category := some ""} = buildQuery {f with category := none} := by
      simp [buildQuery, optStrTruthy, String.isEmpty_iff]
    simp [searchOk, hb]
  · have hb : buildQuery {f with subcategory := some ""} =
        buildQuery {f with subcategory := none} := by
      simp [buildQuery, optStrTruthy, String.isEmpty_iff]
    simp [searchOk, hb]
  · have hb : buildQuery {f with search := some ""} = buildQuery {f with search := none} := by
      simp [buildQuery, optStrTruthy, String.isEmpty_iff]
    simp [searchOk, hb]
  · have hb : buildQuery {f with colors := some []} = buildQuery {f with colors := none} := by
      simp [buildQuery, optListTruthy]
    simp [searchOk, hb]
  · have hb : buildQuery {f with sizes := some []} = buildQuery {f with sizes := none} := by
      simp [buildQuery, optListTruthy]
    simp [searchOk, hb]
  · have hb : buildQuery {f with tags := some []} = buildQuery {f with tags := none} := by
      simp [buildQuery, optListTruthy]
    simp [searchOk, hb]
  · simp [buildQuery]
  · simp [buildQuery]

/-- Dropping the colors clause from a query splits evaluation into the rest
of the query and the any-variant color membership test. -/
lemma matchQuery_colors_split (q : MongoQuery) (p : Product) (cs : List String)
    (h : q.colorsIn = some cs) :
    (matchQuery q p = true ↔
      (matchQuery {q with colorsIn := none} p = true ∧ ∃ v ∈ p.variants, v.color ∈ cs)) := by
  cases q with
  | mk a c sc ci si ti sr pg pl =>
    subst h
    simp [matchQuery, clActive, clCategory, clSubcategory, clColors, clSizes, clTags,
      clSearch, clPrice, Bool.and_eq_true, List.any_eq_true]
    tauto

/-- Dropping the sizes clause from a query splits evaluation into the rest
of the query and the any-variant size membership test. -/
lemma matchQuery_sizes_split (q : MongoQuery) (p : Product) (ss : List String)
    (h : q.sizesIn = some ss) :
    (matchQuery q p = true ↔
      (matchQuery {q with sizesIn := none} p = true ∧ ∃ v ∈ p.variants, v.size ∈ ss)) := by
  cases q with
  | mk a c sc ci si ti sr pg pl =>
    subst h
    simp [matchQuery, clActive, clCategory, clSubcategory, clColors, clSizes, clTags,
      clSearch, clPrice, Bool.and_eq_true, List.any_eq_true]
    tauto

/-- Dropping the tags clause from a query splits evaluation into the rest
of the query and the any-tag membership test. -/
lemma matchQuery_tags_split (q : MongoQuery) (p : Product) (ts : List String)
    (h : q.tagsIn = some ts) :
    (matchQuery q p = true ↔
      (matchQuery {q with tagsIn := none} p = true ∧ ∃ t ∈ p.tags, t ∈ ts)) := by
  cases q with
  | mk a c sc ci si ti sr pg pl =>
    subst h
    simp [matchQuery, clActive, clCategory, clSubcategory, clColors, clSizes, clTags,
      clSearch, clPrice, Bool.and_eq_true, List.any_eq_true]
    tauto

/-- C7: for a FilterRequest providing a non-empty colors (resp. sizes) set,
a product matches that clause if and only if at least one of its variants
has a color (resp. size) in the provided set; for a non-empty tags set, a
product matches if and only if at least one of its tags is in the provided
set; in particular every returned product has at least one variant with a
color in the provided colors set. -/
theorem in_clause_semantics (prods : List Product) (f : FilterRequest)
    (cs ss ts : List String) (p : Product) :
    (f.colors = some cs → cs ≠ [] →
      (matchQuery (buildQuery f) p = true ↔
        (matchQuery (buildQuery {f with colors := none}) p = true ∧
          ∃ v ∈ p.variants, v.color ∈ cs))) ∧
    (f.sizes = some ss → ss ≠ [] →
      (matchQuery (buildQuery f) p = true ↔
        (matchQuery (buildQuery {f with sizes := none}) p = true ∧
          ∃ v ∈ p.variants, v.size ∈ ss))) ∧
    (f.tags = some ts → ts ≠ [] →
      (matchQuery (buildQuery f) p = true ↔
        (matchQuery (buildQuery {f with tags := none}) p = true ∧
          ∃ t ∈ p.tags, t ∈ ts))) ∧
    (f.colors = some cs → cs ≠ [] → p ∈ (searchOk prods f).items →
      ∃ v ∈ p.variants, v.color ∈ cs) := by
  refine ⟨?_, ?_, ?_, ?_⟩
  · intro hc hcne
    have hq : (buildQuery f).colorsIn = some cs := by
      simp [buildQuery, hc, optListTruthy, List.isEmpty_eq_false.mpr hcne]
    have hn : buildQuery {f with colors := none} = {buildQuery f with colorsIn := none} := rfl
    rw [hn]
    exact matchQuery_colors_split _ p cs hq
  · intro hs hsne
    have hq : (buildQuery f).sizesIn = some ss := by
      simp [buildQuery, hs, optListTruthy, List.isEmpty_eq_false.mpr hsne]
    have hn : buildQuery {f with sizes := none} = {buildQuery f with sizesIn := none} := rfl
    rw [hn]
    exact matchQuery_sizes_split _ p ss hq
  · intro ht htne
    have hq : (buildQuery f).tagsIn = some ts := by
      simp [buildQuery, ht, optListTruthy, List.isEmpty_eq_false.mpr htne]
    have hn : buildQuery {f with tags := none} = {buildQuery f with tagsIn := none} := rfl
    rw [hn]
    exact matchQuery_tags_split _ p ts hq
  · intro hc hcne hp
    have hq : (buildQuery f).colorsIn = some cs := by
      simp [buildQuery, hc, optListTruthy, List.isEmpty_eq_false.mpr hcne]
    exact ((matchQuery_colors_split _ p cs hq).mp (mem_searchOk_items hp).2).2

/-- Evaluation of C7 at a concrete filter and product: the clause iff at
colors = ["Red"] is discharged at the record with two red variants. -/
theorem in_clause_semantics_witness :
    matchQuery (buildQuery { colors := some ["Red"] }) wRed = true :=
  ((in_clause_semantics [wRed] { colors := some ["Red"] } ["Red"] ["34B"] ["lace"] wRed).1
    rfl (by decide)).mpr ⟨by decide, by decide⟩

/-! ### The search-text clause: regex versus substring -/

/-- The PCRE metacharacters.  A pattern free of all of them matches exactly
the literal occurrences of itself. -/
def pcreMeta : List Char :=
  ['.', '^', '$', '*', '+', '?', '(', ')', '[', ']', '\x7b', '\x7d', '|', '\\']

/-- A metacharacter-free pattern compiles to its characters as literals. -/
lemma compilePat_of_noMeta {s : String} (h : ∀ c ∈ s.data, c ∉ pcreMeta) :
    compilePat s = s.data.map RTok.lit := by
  unfold compilePat
  apply List.map_congr_left
  intro c hc
  have hcdot : c ≠ '.' := fun he => (h c hc) (by simp [pcreMeta, he])
  simp [hcdot]

/-- An all-literal token list matches at the head exactly when the lowered
pattern is a prefix of the lowered text. -/
lemma matchesAt_lits (l : List Char) (cs : List Char) :
    (matchesAt (l.map RTok.lit) cs = true ↔ l.map Char.toLower <+: cs.map Char.toLower) := by
  induction l generalizing cs with
  | nil => simp [matchesAt]
  | cons a l ih =>
    cases cs with
    | nil => simp [matchesAt]
    | cons c cs =>
      simp [matchesAt, tokMatches, List.cons_prefix_cons, ih, Bool.and_eq_true]

/-- An all-literal token list is found somewhere exactly when the lowered
pattern is an infix of the lowered text. -/
lemma regexSearch_lits (l : List Char) (cs : List Char) :
    (regexSearch (l.map RTok.lit) cs = true ↔ l.map Char.toLower <:+: cs.map Char.toLower) := by
  induction cs with
  | nil => simp [regexSearch, matchesAt_lits]
  | cons c cs ih =>
    simp [regexSearch, Bool.or_eq_true, matchesAt_lits, ih, List.infix_cons_iff]

/-- On metacharacter-free patterns the code's regex clause coincides with
the spec's case-insensitive substring semantics. -/
lemma mongoRegexCI_iff_ciSubstring (pat fld : String) (h : ∀ c ∈ pat.data, c ∉ pcreMeta) :
    (mongoRegexCI pat fld = true ↔ ciSubstring pat fld = true) := by
  unfold mongoRegexCI ciSubstring
  rw [compilePat_of_noMeta h]
  simp [regexSearch_lits]

/-- Dropping the search clause from a query splits evaluation into the rest
of the query and the title-or-description regex test. -/
lemma matchQuery_search_split (q : MongoQuery) (p : Product) (pat : String)
    (h : q.searchRegex = some pat) :
    (matchQuery q p = true ↔
      (matchQuery {q with searchRegex := none} p = true ∧
        (mongoRegexCI pat p.title = true ∨
          ∃ d, p.description = some d ∧ mongoRegexCI pat d = true))) := by
  cases q with
  | mk a c sc ci si ti sr pg pl =>
    subst h
    cases hd : p.description <;>
      simp [matchQuery, clActive, clCategory, clSubcategory, clColors, clSizes, clTags,
        clSearch, clPrice, Bool.and_eq_true, Bool.or_eq_true, hd] <;> tauto

/-- A one-character title that the pattern `"."` matches without being a
substring of it. -/
def dotProduct : Product := { title := "x", price := 1, category := "c" }

/-- C4 fails as stated: the search string `"."` is passed to `$regex`
verbatim, so `dotProduct` (title `"x"`, no description) is returned by the
search even though `"."` is not a case-insensitive substring of its title
or description. -/
theorem search_text_counterexample :
    dotProduct ∈ (searchOk [dotProduct] { search := some "." }).items ∧
    ciSubstring "." dotProduct.title = false ∧ dotProduct.description = none :=
  ⟨by decide, by decide, rfl⟩

/-- C4 (amended): for a non-empty search string free of regex
metacharacters, a product matches the search-text clause if and only if the
string occurs as a case-insensitive substring of its title or its
description, and the clause is combined by AND with all other filter
clauses; for strings containing metacharacters the clause is regex
matching, not literal substring matching. -/
theorem search_text_clause_amended (f : FilterRequest) (s : String) (p : Product)
    (hs : f.search = some s) (hne : s ≠ "")
    (hmeta : ∀ c ∈ s.data, c ∉ pcreMeta) :
    (matchQuery (buildQuery f) p = true ↔
      (matchQuery (buildQuery {f with search := none}) p = true ∧
        (ciSubstring s p.title = true ∨
          ∃ d, p.description = some d ∧ ciSubstring s d = true))) := by
  have hq : (buildQuery f).searchRegex = some s := by
    simp [buildQuery, hs, optStrTruthy, String.isEmpty_iff, hne]
  have hn : buildQuery {f with search := none} = {buildQuery f with searchRegex := none} := rfl
  have hre := fun fld => mongoRegexCI_iff_ciSubstring s fld hmeta
  rw [hn, matchQuery_search_split _ p s hq]
  simp only [hre]

/-- Evaluation of the amended C4 at the metacharacter-free search string
"lace" and a matching record. -/
theorem search_text_clause_amended_witness :
    matchQuery (buildQuery { search := some "lace" }) wRed = true :=
  (search_text_clause_amended { search := some "lace" } "lace" wRed rfl (by decide)
    (by decide)).mpr ⟨by decide, Or.inl (by decide)⟩

/-- The facet pipeline output: every entry is a non-empty value carrying
its exact occurrence count, every non-empty occurring value appears, and
entries are sorted by descending count. -/
lemma facetList_spec (vals : List String) :
    (∀ e ∈ facetList vals, e.value ≠ "" ∧ e.count = vals.count e.value) ∧
    (∀ v, v ≠ "" → v ∈ vals → FacetEntry.mk v (vals.count v) ∈ facetList vals) ∧
    (facetList vals).Pairwise facetDescLe := by
  refine ⟨?_, ?_, ?_⟩
  · intro e he
    unfold facetList at he
    have h1 := List.mem_filter.mp he
    have h2 : e ∈ vals.dedup.map (fun v => FacetEntry.mk v (vals.count v)) :=
      (List.mem_insertionSort _).mp h1.1
    obtain ⟨v, hv, he2⟩ := List.mem_map.mp h2
    have h3 : e.value.isEmpty = false := by simpa using h1.2
    constructor
    · intro heq
      rw [heq] at h3
      exact (by decide : ¬("".isEmpty = false)) h3
    · subst he2
      rfl
  · intro v hv hvin
    unfold facetList
    apply List.mem_filter.mpr
    refine ⟨(List.mem_insertionSort _).mpr ?_, ?_⟩
    · exact List.mem_map_of_mem _ (List.mem_dedup.mpr hvin)
    · have hve : v.isEmpty = false := by
        cases hc : v.isEmpty
        · rfl
        · exact absurd ((String.isEmpty_iff v).mp hc) hv
      simp [hve]
  · unfold facetList
    exact List.Pairwise.sublist (List.filter_sublist _) (List.sorted_insertionSort facetDescLe _)

/-- C2: the color and size facets are computed over the full set of
products matching the filter predicate (not only the returned page): for
each non-empty color (resp. size) value its count equals the number of
variant occurrences of that value across all matching products (a product
with two variants of the same color contributes 2), the facet lists are
sorted by descending count, and values that are empty are excluded. -/
theorem facets_full_set (prods : List Product) (f : FilterRequest) :
    (∀ e ∈ (searchOk prods f).facets.colors,
        e.value ≠ "" ∧
        e.count = (variantOccurrences (fun v => v.color) prods (buildQuery f)).count e.value) ∧
    (∀ v, v ≠ "" → v ∈ variantOccurrences (fun v => v.color) prods (buildQuery f) →
        FacetEntry.mk v ((variantOccurrences (fun v => v.color) prods (buildQuery f)).count v) ∈
          (searchOk prods f).facets.colors) ∧
    (searchOk prods f).facets.colors.Pairwise facetDescLe ∧
    (∀ e ∈ (searchOk prods f).facets.sizes,
        e.value ≠ "" ∧
        e.count = (variantOccurrences (fun v => v.size) prods (buildQuery f)).count e.value) ∧
    (∀ v, v ≠ "" → v ∈ variantOccurrences (fun v => v.size) prods (buildQuery f) →
        FacetEntry.mk v ((variantOccurrences (fun v => v.size) prods (buildQuery f)).count v) ∈
          (searchOk prods f).facets.sizes) ∧
    (searchOk prods f).facets.sizes.Pairwise facetDescLe := by
  obtain ⟨h1, h2, h3⟩ := facetList_spec (variantOccurrences (fun v => v.color) prods (buildQuery f))
  obtain ⟨g1, g2, g3⟩ := facetList_spec (variantOccurrences (fun v => v.size) prods (buildQuery f))
  exact ⟨h1, h2, h3, g1, g2, g3⟩

/-- Evaluation of C2 at a catalog whose single product carries two red
variants: the "Red" facet entry counts both occurrences. -/
theorem facets_full_set_witness :
    (FacetEntry.mk "Red" 2).value ≠ "" ∧
    (FacetEntry.mk "Red" 2).count =
      (variantOccurrences (fun v => v.color) [wRed] (buildQuery {})).count
        (FacetEntry.mk "Red" 2).value :=
  (facets_full_set [wRed] {}).1 (FacetEntry.mk "Red" 2) (by decide)

/-- C9: the search sort mode is selected by a string tag with exactly four
behaviours: price_asc yields a non-decreasing price sequence across the
returned page, price_desc a non-increasing one, rating a non-increasing
rating sequence (null rating ordered below all numbers, as BSON does), and
any other tag, including unset, yields the natural order without raising an
error. -/
theorem sort_modes (prods : List Product) (f : FilterRequest) :
    (∃ r, search_products (some prods) f = .ok r) ∧
    (f.sort = some "price_asc" → (searchOk prods f).items.Pairwise priceAscLe) ∧
    (f.sort = some "price_desc" → (searchOk prods f).items.Pairwise priceDescLe) ∧
    (f.sort = some "rating" → (searchOk prods f).items.Pairwise ratingDescLe) ∧
    (f.sort ≠ some "price_asc" → f.sort ≠ some "price_desc" → f.sort ≠ some "rating" →
      (searchOk prods f).items =
        mongoLimit f.limit
          ((prods.filter fun p => matchQuery (buildQuery f) p).drop
            (max 0 ((f.page - 1) * f.limit)).toNat)) := by
  refine ⟨⟨searchOk prods f, rfl⟩, ?_, ?_, ?_, ?_⟩
  · intro hs
    refine List.Pairwise.sublist (items_sublist_sorted prods f) ?_
    rw [hs]
    simp only [sortItems, if_pos]
    exact List.sorted_insertionSort priceAscLe _
  · intro hs
    refine List.Pairwise.sublist (items_sublist_sorted prods f) ?_
    rw [hs]
    simp [sortItems]
    exact List.sorted_insertionSort priceDescLe _
  · intro hs
    refine List.Pairwise.sublist (items_sublist_sorted prods f) ?_
    rw [hs]
    simp [sortItems]
    exact List.sorted_insertionSort ratingDescLe _
  · intro h1 h2 h3
    rw [searchOk_items]
    unfold sortItems
    rw [if_neg h1, if_neg h2, if_neg h3]

/-- Evaluation of C9 at a concrete catalog under the price_asc tag. -/
theorem sort_modes_witness :
    (searchOk [wRed, wBlack] { sort := some "price_asc" }).items.Pairwise priceAscLe :=
  (sort_modes [wRed, wBlack] { sort := some "price_asc" }).2.1 rfl

/-- C8 fails as stated: with limit = 0 the driver applies no limit at all
(pymongo's `limit(0)` convention), so a one-product catalog yields one
returned item, more than the claimed bound of zero. -/
theorem pagination_counterexample :
    ({ limit := 0 } : FilterRequest).limit = 0 ∧
    (searchOk [wRed] { limit := 0 }).items = [wRed] :=
  ⟨rfl, by decide⟩

/-- C8 (amended): for a positive limit, search skips exactly
max(0, (page-1) * limit) records of the filtered-and-sorted result and
returns at most limit records after skipping, the i-th returned item being
the (skip+i)-th of the unpaginated filtered and sorted result; limit = 0
instead returns all matching records and a negative limit caps the page at
its absolute value (driver conventions). -/
theorem pagination_amended (prods : List Product) (f : FilterRequest) (hlim : 1 ≤ f.limit) :
    ((searchOk prods f).items.length : Int) ≤ f.limit ∧
    (∀ i : Nat, (i : Int) < f.limit →
      (searchOk prods f).items[i]? =
        (sortItems f.sort
            (prods.filter fun p => matchQuery (buildQuery f) p))[(max 0 ((f.page - 1) * f.limit)).toNat + i]?) := by
  have hne : f.limit ≠ 0 := by omega
  constructor
  · rw [searchOk_items]
    unfold mongoLimit
    rw [if_neg hne]
    have hl : (List.take f.limit.natAbs
        ((sortItems f.sort (prods.filter fun p => matchQuery (buildQuery f) p)).drop
          (max 0 ((f.page - 1) * f.limit)).toNat)).length ≤ f.limit.natAbs := by
      rw [List.length_take]
      exact min_le_left _ _
    have hcast : ((List.take f.limit.natAbs
        ((sortItems f.sort (prods.filter fun p => matchQuery (buildQuery f) p)).drop
          (max 0 ((f.page - 1) * f.limit)).toNat)).length : Int) ≤ (f.limit.natAbs : Int) := by
      exact_mod_cast hl
    calc ((List.take f.limit.natAbs
        ((sortItems f.sort (prods.filter fun p => matchQuery (buildQuery f) p)).drop
          (max 0 ((f.page - 1) * f.limit)).toNat)).length : Int)
        ≤ (f.limit.natAbs : Int) := hcast
      _ = f.limit := by omega
  · intro i hi
    have hii : i < f.limit.natAbs := by omega
    rw [searchOk_items]
    unfold mongoLimit
    rw [if_neg hne, List.getElem?_take, if_pos hii, List.getElem?_drop]

/-- Evaluation of the amended C8 at page 2 with limit 1. -/
theorem pagination_amended_witness :
    ((searchOk [wRed, wBlack] { page := 2, limit := 1 }).items.length : Int) ≤
      ({ page := 2, limit := 1 } : FilterRequest).limit :=
  (pagination_amended [wRed, wBlack] { page := 2, limit := 1 } (by decide)).1

/-- C3 fails as stated: with the database handle absent the endpoints raise
`HTTPException(500, "Database not configured")`, and 500 is the
internal-server-error status, not the 503 service-unavailable status. -/
theorem unconfigured_counterexample :
    search_products none {} = .error (.http 500 "Database not configured") ∧
    (500 : Nat) ≠ serviceUnavailableStatus :=
  ⟨rfl, by decide⟩

/-- C3 (amended): for every request to seed, search, get-by-id, or
create-order, if the database handle is absent the operation fails with the
HTTP 500 "Database not configured" error (rather than crashing or doing
anything else), and performs no other action. -/
theorem unconfigured_amended (ps : List Product) (f : FilterRequest) (pid : String)
    (o : Order) :
    seed_products none ps = (.error unconfiguredError, none) ∧
    search_products none f = .error unconfiguredError ∧
    get_product none pid = .error unconfiguredError ∧
    create_order none o = (.error unconfiguredError, none) :=
  ⟨rfl, rfl, rfl, rfl⟩

/-- C6: with the database configured, a syntactically malformed identifier
fails with BadRequest (400); a well-formed identifier matching no record
fails with NotFound (404); otherwise the stored record is returned with its
identifier as a plain string. -/
theorem get_product_contract (recs : List (String × Product)) (pid : String) :
    (isValidObjectId pid = false → get_product (some recs) pid = .error invalidIdError) ∧
    (isValidObjectId pid = true → (∀ r ∈ recs, r.1 ≠ pid.toLower) →
      get_product (some recs) pid = .error notFoundError) ∧
    (isValidObjectId pid = true → (∃ r ∈ recs, r.1 = pid.toLower) →
      ∃ r, get_product (some recs) pid = .ok r ∧ r ∈ recs ∧ r.1 = pid.toLower) := by
  refine ⟨?_, ?_, ?_⟩
  · intro hv
    simp [get_product, hv]
  · intro hv hnone
    have hfind : recs.find? (fun r => r.1 == pid.toLower) = none := by
      apply List.find?_eq_none.mpr
      intro r hr
      simp only [beq_iff_eq]
      exact hnone r hr
    simp [get_product, hv, hfind]
  · intro hv hex
    have hsome : (recs.find? (fun r => r.1 == pid.toLower)).isSome := by
      apply List.find?_isSome.mpr
      obtain ⟨r, hr, he⟩ := hex
      exact ⟨r, hr, by simp [he]⟩
    obtain ⟨r, hr⟩ := Option.isSome_iff_exists.mp hsome
    refine ⟨r, ?_, List.mem_of_find?_eq_some hr, by simpa using List.find?_some hr⟩
    simp [get_product, hv, hr]

/-- Evaluation of C6 at the malformed identifier from the spec's example. -/
theorem get_product_contract_witness :
    get_product (some [("aabbccddeeff001122334455", wRed)]) "not-an-id" =
      .error invalidIdError :=
  (get_product_contract [("aabbccddeeff001122334455", wRed)] "not-an-id").1 (by decide)

/-! ### Bulk seeding -/

/-- The identifiers generated for a batch starting at slot `n0`, in
submission order. -/
def seedIds (n0 : Nat) : List Product → List String
  | [] => []
  | _ :: ps => genId n0 :: seedIds (n0 + 1) ps

/-- The stored documents a batch starting at slot `n0` appends, in
submission order. -/
def docRange (n0 : Nat) : List Product → List (Nat × Product)
  | [] => []
  | p :: ps => (n0, p) :: docRange (n0 + 1) ps

/-- One identifier is generated per submitted record. -/
lemma seedIds_length (n0 : Nat) (ps : List Product) : (seedIds n0 ps).length = ps.length := by
  induction ps generalizing n0 with
  | nil => rfl
  | cons p ps ih => simp [seedIds, ih]

/-- When no insert of the batch fails, the loop returns all generated ids
and appends every document. -/
lemma seedLoop_ok (s : GatewayState Product) (ps : List Product)
    (h : ∀ i < ps.length, s.nextId + i ∉ s.failAt) :
    seedLoop s ps = .ok (seedIds s.nextId ps,
      ⟨s.nextId + ps.length, s.docs ++ docRange s.nextId ps, s.failAt⟩) := by
  induction ps generalizing s with
  | nil =>
    obtain ⟨n, d, fl⟩ := s
    simp [seedLoop, seedIds, docRange]
  | cons p ps ih =>
    obtain ⟨n, d, fl⟩ := s
    have h0 : n ∉ fl := by simpa using h 0 (by simp)
    have hcd : create_document ⟨n, d, fl⟩ p = .ok (genId n, ⟨n + 1, d ++ [(n, p)], fl⟩) := by
      unfold create_document
      rw [if_neg (by simpa using h0)]
    have harg : ∀ i < ps.length, (⟨n + 1, d ++ [(n, p)], fl⟩ : GatewayState Product).nextId + i ∉
        (⟨n + 1, d ++ [(n, p)], fl⟩ : GatewayState Product).failAt := by
      intro i hi
      have h2 := h (i + 1) (by simp; omega)
      simpa [show n + (i + 1) = n + 1 + i by omega] using h2
    simp only [seedLoop]
    rw [hcd]
    dsimp only
    rw [ih ⟨n + 1, d ++ [(n, p)], fl⟩ harg]
    simp [seedIds, docRange, List.append_assoc, GatewayState.mk.injEq]
    omega

/-- When the insert at offset `k` is the first to fail, the loop aborts
there: the error propagates and exactly the first `k` documents stay
appended. -/
lemma seedLoop_fail (s : GatewayState Product) (ps : List Product) (k : Nat)
    (hk : k < ps.length) (hf : s.nextId + k ∈ s.failAt)
    (hmin : ∀ i < k, s.nextId + i ∉ s.failAt) :
    seedLoop s ps = .error ("insert failed",
      ⟨s.nextId + k, s.docs ++ docRange s.nextId (ps.take k), s.failAt⟩) := by
  induction ps generalizing s k with
  | nil => simp at hk
  | cons p ps ih =>
    obtain ⟨n, d, fl⟩ := s
    cases k with
    | zero =>
      have hc : fl.contains n = true := by simpa using hf
      simp only [seedLoop]
      unfold create_document
      simp only [hc]
      simp [docRange]
    | succ k =>
      have h0 : n ∉ fl := by simpa using hmin 0 (by omega)
      have hcd : create_document ⟨n, d, fl⟩ p = .ok (genId n, ⟨n + 1, d ++ [(n, p)], fl⟩) := by
        unfold create_document
        rw [if_neg (by simpa using h0)]
      have hf2 : (⟨n + 1, d ++ [(n, p)], fl⟩ : GatewayState Product).nextId + k ∈
          (⟨n + 1, d ++ [(n, p)], fl⟩ : GatewayState Product).failAt := by
        simpa [show n + 1 + k = n + (k + 1) by omega] using hf
      have hmin2 : ∀ i < k, (⟨n + 1, d ++ [(n, p)], fl⟩ : GatewayState Product).nextId + i ∉
          (⟨n + 1, d ++ [(n, p)], fl⟩ : GatewayState Product).failAt := by
        intro i hi
        simpa [show n + 1 + i = n + (i + 1) by omega] using hmin (i + 1) (by omega)
      simp only [seedLoop]
      rw [hcd]
      dsimp only
      rw [ih ⟨n + 1, d ++ [(n, p)], fl⟩ k
        (by simpa using Nat.lt_of_succ_lt_succ (by simpa using hk)) hf2 hmin2]
      simp [docRange, List.append_assoc, GatewayState.mk.injEq]
      omega

/-- C5 fails as stated: with the second insert of a two-product batch
failing, the whole call errors out, yet the first product remains inserted
— the database state is not unchanged (no rollback happens). -/
theorem seed_no_rollback_counterexample :
    (seed_products (some ⟨0, [], [1]⟩) [wRed, wBlack]).1 = .error (.exn "insert failed") ∧
    (seed_products (some ⟨0, [], [1]⟩) [wRed, wBlack]).2 = some ⟨1, [(0, wRed)], [1]⟩ ∧
    (⟨1, [(0, wRed)], [1]⟩ : GatewayState Product) ≠ ⟨0, [], [1]⟩ :=
  ⟨rfl, rfl, by decide⟩

/-- C5 (amended): when every insert of a batch of n products succeeds the
response is inserted = n with the n generated identifiers in submission
order; when the insert at offset k is the first to fail, the batch is
aborted with an error surfaced to the caller and no subset is reported as
inserted, but the k records inserted before the failure remain in the
database (the state is not rolled back). -/
theorem seed_batch_amended (s : GatewayState Product) (ps : List Product) (k : Nat) :
    ((∀ i < ps.length, s.nextId + i ∉ s.failAt) →
      seed_products (some s) ps =
        (.ok ⟨ps.length, seedIds s.nextId ps⟩,
         some ⟨s.nextId + ps.length, s.docs ++ docRange s.nextId ps, s.failAt⟩)) ∧
    (k < ps.length → s.nextId + k ∈ s.failAt → (∀ i < k, s.nextId + i ∉ s.failAt) →
      seed_products (some s) ps =
        (.error (.exn "insert failed"),
         some ⟨s.nextId + k, s.docs ++ docRange s.nextId (ps.take k), s.failAt⟩)) := by
  constructor
  · intro h
    simp only [seed_products]
    rw [seedLoop_ok s ps h]
    simp [seedIds_length]
  · intro hk hf hmin
    simp only [seed_products]
    rw [seedLoop_fail s ps k hk hf hmin]

/-- Evaluation of the amended C5 on a fault-free two-product batch. -/
theorem seed_batch_amended_witness :
    seed_products (some ⟨0, [], []⟩) [wRed, wBlack] =
      (.ok ⟨[wRed, wBlack].length, seedIds 0 [wRed, wBlack]⟩,
       some ⟨0 + [wRed, wBlack].length, [] ++ docRange 0 [wRed, wBlack], []⟩) :=
  (seed_batch_amended ⟨0, [], []⟩ [wRed, wBlack] 0).1 (by decide)
